import Mathlib

/-
  Shallow embedding of the four AWS Lambda handlers of the notes CRUD service:
  src/01-lambdas/code/create.py, list.py, update.py, delete.py.

  Python values appearing in request bodies are modelled by the `Json` type;
  the DynamoDB table is modelled as a list of `Note` records keyed by
  (owner, id); transport failures of the store (ClientError with a code other
  than ConditionalCheckFailedException) are injected through a `fault` flag;
  the freshly generated uuid and the current timestamp are injected as
  parameters, since they are effects of the handler.  An uncaught Python
  exception (the handlers can raise AttributeError) is modelled by the
  handler returning `none`.
-/

/-- A parsed JSON value, as produced by Python's json.loads.  Numbers are
modelled as integers (no claim involves fractional numbers).  Object field
lists model the parsed dict, so keys are unique. -/
inductive Json where
  | null : Json
  | bool : Bool → Json
  | num : Int → Json
  | str : String → Json
  | arr : List Json → Json
  | obj : List (String × Json) → Json

/-- A single-quote character, used by the Python repr of strings. -/
def squote : String := String.singleton (Char.ofNat 39)

mutual

/-- Python repr() of a json.loads value (str rendered with quotes). -/
def pyRepr : Json → String
  | .null => "None"
  | .bool true => "True"
  | .bool false => "False"
  | .num n => toString n
  | .str s => squote ++ s ++ squote
  | .arr xs => "[" ++ pyReprSeq xs ++ "]"
  | .obj fs => "\x7b" ++ pyReprFields fs ++ "\x7d"

/-- Comma-separated repr of the elements of a Python list. -/
def pyReprSeq : List Json → String
  | [] => ""
  | [j] => pyRepr j
  | j :: rest => pyRepr j ++ ", " ++ pyReprSeq rest

/-- Comma-separated repr of the entries of a Python dict. -/
def pyReprFields : List (String × Json) → String
  | [] => ""
  | [(k, v)] => squote ++ k ++ squote ++ ": " ++ pyRepr v
  | (k, v) :: rest => squote ++ k ++ squote ++ ": " ++ pyRepr v ++ ", " ++ pyReprFields rest

end

/-- Python str() of a json.loads value: the string itself for str values,
repr for everything else (None, bools, numbers, lists, dicts). -/
def pyStr : Json → String
  | .str s => s
  | j => pyRepr j

/-- Python str.strip(): remove whitespace from both ends. -/
def pyStrip (s : String) : String :=
  String.mk (((s.data.dropWhile Char.isWhitespace).reverse.dropWhile
    Char.isWhitespace).reverse)

/-- The "body" entry of the incoming event.  `absent` means the event has no
"body" key, so `event.get("body", "\x7b\x7d")` yields the default "\x7b\x7d";
`malformed msg` means a body string that json.loads rejects (msg is the
JSONDecodeError text); `parsed j` means a body string that json.loads parses
to the value `j`. -/
inductive BodyField where
  | absent : BodyField
  | malformed : String → BodyField
  | parsed : Json → BodyField

/-- The "pathParameters" entry of the incoming event: missing entirely
(`event.get` yields the default empty dict), present but None (then
`.get("id", "")` raises AttributeError, which `_get_note_id` catches), or a
dict of string parameters. -/
inductive PathParams where
  | absent : PathParams
  | null : PathParams
  | params : List (String × String) → PathParams

/-- The Lambda invocation event, restricted to the keys the handlers read. -/
structure Event where
  body : BodyField
  pathParameters : PathParams

/-- `_get_note_id` from update.py and delete.py:
`event.get("pathParameters", \x7b\x7d).get("id", "").strip()`, returning ""
when the chain raises AttributeError (pathParameters is None). -/
def _get_note_id (event : Event) : String :=
  match event.pathParameters with
  | .absent => pyStrip ""
  | .null => ""
  | .params m => pyStrip (((m.lookup "id").getD ""))

/-- Outcome of the "Parse request body" block shared by create.py and
update.py (json.loads of the body with default "\x7b\x7d", str().strip() of
the title and note fields, ValueError when either is empty). -/
inductive ParsedBody where
  | crash : ParsedBody
  | invalid : String → ParsedBody
  | ok : String → String → ParsedBody

/-- `payload.get(key, "")` followed by str() and .strip(), for a payload that
is a dict.  Applied to a non-dict payload the .get call raises
AttributeError, which the block does not catch: `none`. -/
def payloadField (payload : Json) (key : String) : Option String :=
  match payload with
  | .obj fs => some (pyStrip (pyStr ((fs.lookup key).getD (Json.str ""))))
  | _ => none

/-- Field extraction and validation applied to the json.loads result:
title/note via `payload.get(key, "")` + str() + .strip(), then the two
checks raising ValueError ("title is required" / "note is required"), whose
messages reach the caller as "Invalid request body: " + str(exc). -/
def parse_payload (payload : Json) : ParsedBody :=
  match payloadField payload "title", payloadField payload "note" with
  | some title, some note =>
    if title = "" then .invalid "Invalid request body: title is required"
    else if note = "" then .invalid "Invalid request body: note is required"
    else .ok title note
  | _, _ => .crash

/-- The "Parse request body" block of create.py (lines 75-86) and update.py
(lines 94-105).  A missing body key defaults to "\x7b\x7d", which json.loads
parses to the empty dict; a JSONDecodeError or an empty required field is
caught and reported as `invalid` with the message of the 400 response; a
payload that parses but is not a dict raises an uncaught AttributeError
(`crash`). -/
def parse_request_body (b : BodyField) : ParsedBody :=
  match b with
  | .malformed msg => .invalid ("Invalid request body: " ++ msg)
  | .absent => parse_payload (Json.obj [])
  | .parsed payload => parse_payload payload

/-- A note record as stored in the DynamoDB table (PK owner, SK id). -/
structure Note where
  owner : String
  id : String
  title : String
  note : String
  created_at : String
  updated_at : String

/-- The DynamoDB table: a collection of records, addressed by (owner, id). -/
abbrev Store := List Note

/-- Point lookup by the composite key (owner, id). -/
def findNote (s : Store) (owner id : String) : Option Note :=
  s.find? (fun n => n.owner == owner && n.id == id)

/-- A ClientError raised by a store call: the conditional expression failed
(code ConditionalCheckFailedException), or a transport/availability error
(any other code). -/
inductive StoreErr where
  | conditionalCheckFailed : StoreErr
  | transport : StoreErr

/-- `table.put_item(Item=item, ConditionExpression="attribute_not_exists(#id)")`
from create.py: insert only if no record with the same key exists.  `fault`
injects a transport ClientError. -/
def put_item_cond (fault : Bool) (s : Store) (item : Note) :
    Except StoreErr Store :=
  if fault then .error .transport
  else
    match findNote s item.owner item.id with
    | some _ => .error .conditionalCheckFailed
    | none => .ok (item :: s)

/-- `table.update_item(..., ConditionExpression="attribute_exists(#id)",
ReturnValues="ALL_NEW")` from update.py: SET title, note, updated_at on the
record at (owner, id) if it exists, returning the full post-update record. -/
def update_item_cond (fault : Bool) (s : Store)
    (owner id title note ts : String) : Except StoreErr (Note × Store) :=
  if fault then .error .transport
  else
    match findNote s owner id with
    | none => .error .conditionalCheckFailed
    | some r =>
      let r2 : Note := { r with title := title, note := note, updated_at := ts }
      .ok (r2, s.map (fun n => if n.owner == owner && n.id == id then r2 else n))

/-- `table.delete_item(Key=..., ConditionExpression="attribute_exists(#id)")`
from delete.py: remove the record at (owner, id) if it exists. -/
def delete_item_cond (fault : Bool) (s : Store) (owner id : String) :
    Except StoreErr Store :=
  if fault then .error .transport
  else
    match findNote s owner id with
    | none => .error .conditionalCheckFailed
    | some _ => .ok (s.filter (fun n => !(n.owner == owner && n.id == id)))

/-- `table.query(KeyConditionExpression=Key("owner").eq(OWNER))` from
list.py: all records in the partition of the given owner. -/
def query_by_owner (fault : Bool) (s : Store) (owner : String) :
    Except StoreErr (List Note) :=
  if fault then .error .transport
  else .ok (s.filter (fun n => n.owner == owner))

/-- The response dict returned by every handler: status code, the single
Content-Type header, and the dict passed to json.dumps as the body. -/
structure Response where
  statusCode : Nat
  contentType : String
  body : Json

/-- `_response(status_code, body)`, identical in all four source files. -/
def _response (statusCode : Nat) (body : Json) : Response :=
  { statusCode := statusCode, contentType := "application/json", body := body }

/-- The error body dict \x7b"error": msg\x7d used by every failure path. -/
def errBody (msg : String) : Json := Json.obj [("error", Json.str msg)]

/-- The fixed owner value used by all four handlers. -/
def OWNER : String := "global"

/-- The message of ValueError raised by `_require_env` when NOTES_TABLE_NAME
is empty, identical in all four source files. -/
def envErrMsg : String := "NOTES_TABLE_NAME environment variable is required"

/-- The DynamoDB item rendered back to the response dict (update.py returns
the ALL_NEW attributes, list.py returns the queried items). -/
def Note.toJson (n : Note) : Json :=
  Json.obj [("owner", Json.str n.owner), ("id", Json.str n.id),
    ("title", Json.str n.title), ("note", Json.str n.note),
    ("created_at", Json.str n.created_at), ("updated_at", Json.str n.updated_at)]

/-- create.py lambda_handler.  Effects are explicit parameters: `tableName`
is the stripped NOTES_TABLE_NAME value, `note_id` the generated
str(uuid.uuid4()), `now` the datetime.now(timezone.utc).isoformat()
timestamp, `fault` injects a transport ClientError on the store call, and
`store` is the table state.  Returns the response together with the
post-call table state, or `none` when an uncaught exception escapes. -/
def Create.lambda_handler (tableName : String) (event : Event)
    (note_id now : String) (fault : Bool) (store : Store) :
    Option (Response × Store) :=
  if tableName = "" then
    some (_response 500 (errBody envErrMsg), store)
  else
    match parse_request_body event.body with
    | .crash => none
    | .invalid msg => some (_response 400 (errBody msg), store)
    | .ok title note =>
      let item : Note :=
        { owner := OWNER, id := note_id, title := title, note := note,
          created_at := now, updated_at := now }
      match put_item_cond fault store item with
      | .error _ => some (_response 500 (errBody "Failed to create note"), store)
      | .ok store2 =>
        some (_response 201 (Json.obj [("id", Json.str note_id),
          ("title", Json.str title), ("note", Json.str note)]), store2)

/-- list.py lambda_handler: query the fixed owner partition and return the
items; the event is never read. -/
def ListNotes.lambda_handler (tableName : String) (fault : Bool)
    (store : Store) : Response × Store :=
  if tableName = "" then
    (_response 500 (errBody envErrMsg), store)
  else
    match query_by_owner fault store OWNER with
    | .error _ => (_response 500 (errBody "Failed to list notes"), store)
    | .ok items =>
      (_response 200 (Json.obj [("items", Json.arr (items.map Note.toJson))]),
        store)

/-- update.py lambda_handler: env check, path id, body parse, then the
conditional update; ConditionalCheckFailedException maps to 404, any other
ClientError to 500, success to 200 with the ALL_NEW attributes. -/
def Update.lambda_handler (tableName : String) (event : Event) (now : String)
    (fault : Bool) (store : Store) : Option (Response × Store) :=
  if tableName = "" then
    some (_response 500 (errBody envErrMsg), store)
  else
    let note_id := _get_note_id event
    if note_id = "" then
      some (_response 400 (errBody "Note id is required"), store)
    else
      match parse_request_body event.body with
      | .crash => none
      | .invalid msg => some (_response 400 (errBody msg), store)
      | .ok title note =>
        match update_item_cond fault store OWNER note_id title note now with
        | .error .conditionalCheckFailed =>
          some (_response 404 (errBody "Note not found"), store)
        | .error .transport =>
          some (_response 500 (errBody "Failed to update note"), store)
        | .ok (item, store2) => some (_response 200 (Note.toJson item), store2)

/-- delete.py lambda_handler: env check, path id, then the conditional
delete; ConditionalCheckFailedException maps to 404, any other ClientError
to 500, success to 200 with a confirmation message. -/
def Delete.lambda_handler (tableName : String) (event : Event) (fault : Bool)
    (store : Store) : Response × Store :=
  if tableName = "" then
    (_response 500 (errBody envErrMsg), store)
  else
    let note_id := _get_note_id event
    if note_id = "" then
      (_response 400 (errBody "Note id is required"), store)
    else
      match delete_item_cond fault store OWNER note_id with
      | .error .conditionalCheckFailed =>
        (_response 404 (errBody "Note not found"), store)
      | .error .transport =>
        (_response 500 (errBody "Failed to delete note"), store)
      | .ok store2 => (_response 200 (Json.obj [("message",
          Json.str "Note deleted")]), store2)

/-- The body of the response is a JSON object (json.dumps of a dict). -/
def isObjBody : Json → Bool
  | .obj _ => true
  | _ => false

/-- The body of the response has the error shape \x7b"error": msg\x7d. -/
def isErrBody : Json → Bool
  | .obj [("error", .str _)] => true
  | _ => false

/-- The response contract of the API: status in the fixed vocabulary,
content-type application/json, JSON object body, error statuses carrying an
error-shaped body. -/
def goodResponse (r : Response) : Prop :=
  (r.statusCode = 200 ∨ r.statusCode = 201 ∨ r.statusCode = 400 ∨
    r.statusCode = 404 ∨ r.statusCode = 500)
  ∧ r.contentType = "application/json"
  ∧ isObjBody r.body = true
  ∧ ((r.statusCode = 400 ∨ r.statusCode = 404 ∨ r.statusCode = 500) →
      isErrBody r.body = true)

theorem goodResponse_err (status : Nat) (msg : String)
    (hs : status = 400 ∨ status = 404 ∨ status = 500) :
    goodResponse (_response status (errBody msg)) := by
  refine ⟨?_, rfl, rfl, fun _ => rfl⟩
  rcases hs with h | h | h <;> simp [_response, h]

theorem goodResponse_obj (status : Nat) (fs : List (String × Json))
    (hs : status = 200 ∨ status = 201) :
    goodResponse (_response status (Json.obj fs)) := by
  refine ⟨?_, rfl, rfl, ?_⟩
  · rcases hs with h | h <;> simp [_response, h]
  · rcases hs with h | h <;> simp [_response, h]

/-- C7: when the required store-target configuration setting is absent
(NOTES_TABLE_NAME strips to the empty string), each of the four handlers
returns 500 with the fixed message and performs no store access of any
kind: the response is the same for every store state and every store fault,
and the store is returned unchanged. -/
theorem C7_missing_config_500 :
    ∀ (e : Event) (note_id now : String) (fault : Bool) (store : Store),
      Create.lambda_handler "" e note_id now fault store
        = some (_response 500 (errBody envErrMsg), store)
      ∧ Update.lambda_handler "" e now fault store
        = some (_response 500 (errBody envErrMsg), store)
      ∧ ListNotes.lambda_handler "" fault store
        = (_response 500 (errBody envErrMsg), store)
      ∧ Delete.lambda_handler "" e fault store
        = (_response 500 (errBody envErrMsg), store) := by
  intro e note_id now fault store
  exact ⟨rfl, rfl, rfl, rfl⟩

/-- C9: an event whose body is parseable JSON but not a JSON object (here
the body strings "[]" and "5") makes the Create and Update handlers raise
an uncaught AttributeError — modelled as `none`: no response at all, in
particular no 400. -/
theorem C9_nonobject_body_uncaught :
    Create.lambda_handler "notes" ⟨.parsed (Json.arr []), .absent⟩
      "id1" "t0" false [] = none
    ∧ Update.lambda_handler "notes"
      ⟨.parsed (Json.num 5), .params [("id", "x")]⟩ "t1" false [] = none := by
  exact ⟨rfl, rfl⟩

/-- C6: when Create's conditional insert fails — either because a record
with the generated id already exists (ConditionalCheckFailedException) or
because of any other store error (transport fault) — the handler returns
500 with the same generic error body in both cases, leaving the store
unchanged: the two failure causes are not surfaced distinctly. -/
theorem C6_create_store_failure_500 (tableName : String) (hcfg : tableName ≠ "")
    (e : Event) (title note : String)
    (hbody : parse_request_body e.body = .ok title note)
    (note_id now : String) (fault : Bool) (store : Store)
    (hfail : fault = true ∨ ∃ r, findNote store OWNER note_id = some r) :
    Create.lambda_handler tableName e note_id now fault store
      = some (_response 500 (errBody "Failed to create note"), store) := by
  unfold Create.lambda_handler
  rw [if_neg hcfg, hbody]
  rcases hfail with h | ⟨r, h⟩
  · simp [put_item_cond, h]
  · cases fault <;> simp [put_item_cond, h]

theorem C6_create_store_failure_500_witness :
    Create.lambda_handler "notes"
      ⟨.parsed (Json.obj [("title", Json.str "A"), ("note", Json.str "B")]),
        .absent⟩ "id1" "t1" false
      [⟨"global", "id1", "T", "N", "t0", "t0"⟩]
      = some (_response 500 (errBody "Failed to create note"),
        [⟨"global", "id1", "T", "N", "t0", "t0"⟩]) := by
  exact C6_create_store_failure_500 "notes" (by decide)
    ⟨.parsed (Json.obj [("title", Json.str "A"), ("note", Json.str "B")]),
      .absent⟩ "A" "B" rfl "id1" "t1" false _ (Or.inr ⟨_, rfl⟩)

/-- C8: with configuration present and the store reachable, the List
handler returns 200 with body \x7bitems: [...]\x7d holding exactly the
records whose owner is the fixed constant (possibly the empty array), and
returns the store unchanged: it reads only. -/
theorem C8_list_owner_items (tableName : String) (hcfg : tableName ≠ "")
    (store : Store) :
    ListNotes.lambda_handler tableName false store
      = (_response 200 (Json.obj [("items", Json.arr
          ((store.filter (fun n => n.owner == OWNER)).map Note.toJson))]),
        store) := by
  unfold ListNotes.lambda_handler
  rw [if_neg hcfg]
  rfl

theorem C8_list_owner_items_witness :
    ListNotes.lambda_handler "notes" false
      [⟨"global", "x", "T", "N", "t0", "t0"⟩,
       ⟨"other", "y", "U", "M", "t0", "t0"⟩]
      = (_response 200 (Json.obj [("items", Json.arr
          [Note.toJson ⟨"global", "x", "T", "N", "t0", "t0"⟩])]),
        [⟨"global", "x", "T", "N", "t0", "t0"⟩,
         ⟨"other", "y", "U", "M", "t0", "t0"⟩]) := by
  exact C8_list_owner_items "notes" (by decide) _

/-- C1: for an id for which no record exists in the store (under the fixed
owner), the Update handler — given configuration present and a valid
non-empty payload — and the Delete handler return 404 with the "Note not
found" body and leave the store state unchanged. -/
theorem C1_nonexistent_id_404 (tableName : String) (hcfg : tableName ≠ "")
    (e : Event) (now : String) (store : Store)
    (hid : _get_note_id e ≠ "")
    (habs : findNote store OWNER (_get_note_id e) = none)
    (title note : String)
    (hbody : parse_request_body e.body = .ok title note) :
    Update.lambda_handler tableName e now false store
      = some (_response 404 (errBody "Note not found"), store)
    ∧ Delete.lambda_handler tableName e false store
      = (_response 404 (errBody "Note not found"), store) := by
  constructor
  · unfold Update.lambda_handler
    rw [if_neg hcfg]
    simp only [if_neg hid, hbody]
    simp [update_item_cond, habs]
  · unfold Delete.lambda_handler
    rw [if_neg hcfg]
    simp only [if_neg hid]
    simp [delete_item_cond, habs]

theorem C1_nonexistent_id_404_witness :
    Update.lambda_handler "notes"
      ⟨.parsed (Json.obj [("title", Json.str "A"), ("note", Json.str "B")]),
        .params [("id", "x")]⟩ "t1" false
      [⟨"global", "y", "T", "N", "t0", "t0"⟩]
      = some (_response 404 (errBody "Note not found"),
        [⟨"global", "y", "T", "N", "t0", "t0"⟩])
    ∧ Delete.lambda_handler "notes"
      ⟨.parsed (Json.obj [("title", Json.str "A"), ("note", Json.str "B")]),
        .params [("id", "x")]⟩ false
      [⟨"global", "y", "T", "N", "t0", "t0"⟩]
      = (_response 404 (errBody "Note not found"),
        [⟨"global", "y", "T", "N", "t0", "t0"⟩]) := by
  exact C1_nonexistent_id_404 "notes" (by decide)
    ⟨.parsed (Json.obj [("title", Json.str "A"), ("note", Json.str "B")]),
      .params [("id", "x")]⟩ "t1"
    [⟨"global", "y", "T", "N", "t0", "t0"⟩] (by decide) rfl "A" "B" rfl

/-- C3: a successful Create — configuration present, payload a JSON object
whose title and note are non-empty after trimming, generated id fresh —
inserts exactly one record: owner is the fixed constant, id is the
server-generated identifier (a handler parameter, not read from the
event), title and note are the trimmed payload fields, and
created_at = updated_at = the generation-time timestamp; the response is
201 with body \x7bid, title, note\x7d. -/
theorem C3_create_success (tableName : String) (hcfg : tableName ≠ "")
    (e : Event) (fs : List (String × Json)) (rawTitle rawNote : String)
    (hb : e.body = .parsed (Json.obj fs))
    (ht : fs.lookup "title" = some (Json.str rawTitle))
    (hn : fs.lookup "note" = some (Json.str rawNote))
    (ht2 : pyStrip rawTitle ≠ "") (hn2 : pyStrip rawNote ≠ "")
    (note_id now : String) (store : Store)
    (hfresh : findNote store OWNER note_id = none) :
    Create.lambda_handler tableName e note_id now false store
      = some (_response 201 (Json.obj [("id", Json.str note_id),
          ("title", Json.str (pyStrip rawTitle)),
          ("note", Json.str (pyStrip rawNote))]),
        ({ owner := OWNER, id := note_id, title := pyStrip rawTitle,
           note := pyStrip rawNote, created_at := now,
           updated_at := now } : Note) :: store) := by
  unfold Create.lambda_handler
  rw [if_neg hcfg, hb]
  simp only [parse_request_body, parse_payload, payloadField, ht, hn,
    Option.getD_some, pyStr, if_neg ht2, if_neg hn2]
  simp [put_item_cond, hfresh]

theorem C3_create_success_witness :
    Create.lambda_handler "notes"
      ⟨.parsed (Json.obj [("title", Json.str " A "), ("note", Json.str "B")]),
        .absent⟩ "id1" "t0" false []
      = some (_response 201 (Json.obj [("id", Json.str "id1"),
          ("title", Json.str "A"), ("note", Json.str "B")]),
        [⟨OWNER, "id1", "A", "B", "t0", "t0"⟩]) := by
  exact C3_create_success "notes" (by decide)
    ⟨.parsed (Json.obj [("title", Json.str " A "), ("note", Json.str "B")]),
      .absent⟩ _ " A " "B" rfl rfl rfl (by decide) (by decide) "id1" "t0" [] rfl

/-- C4: a successful Update (status 200) on an existing record — with
configuration present, a payload object whose trimmed title and note are
non-empty, and a timestamp strictly later than the record's — changes only
that record's title, note and updated_at: id, owner and created_at are
unchanged, title/note equal the new trimmed payload values, updated_at is
strictly greater than before, and every other record of the store is left
in place unmodified. -/
theorem C4_update_preserves_identity (tableName : String)
    (hcfg : tableName ≠ "") (e : Event)
    (fs : List (String × Json)) (rawTitle rawNote : String)
    (hb : e.body = .parsed (Json.obj fs))
    (ht : fs.lookup "title" = some (Json.str rawTitle))
    (hn : fs.lookup "note" = some (Json.str rawNote))
    (ht2 : pyStrip rawTitle ≠ "") (hn2 : pyStrip rawNote ≠ "")
    (now : String) (store : Store) (r : Note)
    (hid : _get_note_id e ≠ "")
    (hr : findNote store OWNER (_get_note_id e) = some r)
    (hts : r.updated_at < now) :
    ∃ r2 store2,
      Update.lambda_handler tableName e now false store
        = some (_response 200 (Note.toJson r2), store2)
      ∧ r2.id = r.id ∧ r2.owner = r.owner ∧ r2.created_at = r.created_at
      ∧ r2.title = pyStrip rawTitle ∧ r2.note = pyStrip rawNote
      ∧ r.updated_at < r2.updated_at
      ∧ store2 = store.map (fun n =>
          if n.owner == OWNER && n.id == _get_note_id e then r2 else n)
      ∧ ∀ m ∈ store, ¬(m.owner = OWNER ∧ m.id = _get_note_id e) →
          m ∈ store2 := by
  refine ⟨{ r with title := pyStrip rawTitle, note := pyStrip rawNote, updated_at := now },
    _, ?_, rfl, rfl, rfl, rfl, rfl, hts, rfl, ?_⟩
  · unfold Update.lambda_handler
    rw [if_neg hcfg]
    simp only [if_neg hid, hb]
    simp only [parse_request_body, parse_payload, payloadField, ht, hn,
      Option.getD_some, pyStr, if_neg ht2, if_neg hn2]
    simp [update_item_cond, hr]
  · intro m hm hkey
    refine List.mem_map.mpr ⟨m, hm, ?_⟩
    rw [if_neg]
    simp only [Bool.and_eq_true, beq_iff_eq]
    exact hkey

theorem C4_update_preserves_identity_witness :
    ∃ r2 store2,
      Update.lambda_handler "notes"
        ⟨.parsed (Json.obj [("title", Json.str "A2"), ("note", Json.str "B2")]),
          .params [("id", "x")]⟩ "t1" false
        [⟨"global", "x", "T", "N", "t0", "t0"⟩,
         ⟨"global", "y", "U", "M", "t0", "t0"⟩]
        = some (_response 200 (Note.toJson r2), store2)
      ∧ r2.id = "x" ∧ r2.owner = "global" ∧ r2.created_at = "t0"
      ∧ r2.title = pyStrip "A2" ∧ r2.note = pyStrip "B2"
      ∧ "t0" < r2.updated_at
      ∧ store2 = List.map (fun n =>
          if n.owner == OWNER && n.id == _get_note_id
            ⟨.parsed (Json.obj [("title", Json.str "A2"),
              ("note", Json.str "B2")]), .params [("id", "x")]⟩
          then r2 else n)
          [⟨"global", "x", "T", "N", "t0", "t0"⟩,
           ⟨"global", "y", "U", "M", "t0", "t0"⟩]
      ∧ ∀ m ∈ ([⟨"global", "x", "T", "N", "t0", "t0"⟩,
          ⟨"global", "y", "U", "M", "t0", "t0"⟩] : Store),
          ¬(m.owner = OWNER ∧ m.id = _get_note_id
            ⟨.parsed (Json.obj [("title", Json.str "A2"),
              ("note", Json.str "B2")]), .params [("id", "x")]⟩) →
          m ∈ store2 := by
  exact C4_update_preserves_identity "notes" (by decide)
    ⟨.parsed (Json.obj [("title", Json.str "A2"), ("note", Json.str "B2")]),
      .params [("id", "x")]⟩ _ "A2" "B2" rfl rfl rfl (by decide) (by decide)
    "t1" _ ⟨"global", "x", "T", "N", "t0", "t0"⟩ (by decide) rfl
    (by rw [String.lt_iff_toList_lt]; decide)

/-- C5: with configuration present, a request failing validation — a
required field missing or empty after trimming for Create/Update (any
outcome the parse block reports as invalid), or a path identifier absent
or empty after trimming for Update/Delete — gets status 400, and the store
is never contacted: the response and the returned store are the same for
every store state and every store fault, the store unchanged. -/
theorem C5_validation_400_no_store_call (tableName : String)
    (hcfg : tableName ≠ "") :
    (∀ e msg, parse_request_body e.body = .invalid msg →
      ∀ note_id now fault store,
        Create.lambda_handler tableName e note_id now fault store
          = some (_response 400 (errBody msg), store))
    ∧ (∀ e, _get_note_id e = "" →
      ∀ now fault store,
        Update.lambda_handler tableName e now fault store
          = some (_response 400 (errBody "Note id is required"), store))
    ∧ (∀ e msg, _get_note_id e ≠ "" → parse_request_body e.body = .invalid msg →
      ∀ now fault store,
        Update.lambda_handler tableName e now fault store
          = some (_response 400 (errBody msg), store))
    ∧ (∀ e, _get_note_id e = "" →
      ∀ fault store,
        Delete.lambda_handler tableName e fault store
          = (_response 400 (errBody "Note id is required"), store)) := by
  refine ⟨?_, ?_, ?_, ?_⟩
  · intro e msg hbody note_id now fault store
    unfold Create.lambda_handler
    rw [if_neg hcfg, hbody]
  · intro e hid now fault store
    unfold Update.lambda_handler
    rw [if_neg hcfg]
    simp [hid]
  · intro e msg hid hbody now fault store
    unfold Update.lambda_handler
    rw [if_neg hcfg]
    simp only [if_neg hid, hbody]
  · intro e hid fault store
    unfold Delete.lambda_handler
    rw [if_neg hcfg]
    simp [hid]

theorem C5_validation_400_no_store_call_witness :
    Create.lambda_handler "notes"
      ⟨.parsed (Json.obj [("title", Json.str " "), ("note", Json.str "x")]),
        .absent⟩ "id1" "t0" true [⟨"global", "y", "T", "N", "t0", "t0"⟩]
      = some (_response 400 (errBody "Invalid request body: title is required"),
        [⟨"global", "y", "T", "N", "t0", "t0"⟩])
    ∧ Update.lambda_handler "notes" ⟨.absent, .null⟩ "t1" true []
      = some (_response 400 (errBody "Note id is required"), [])
    ∧ Update.lambda_handler "notes"
      ⟨.parsed (Json.obj [("title", Json.str "A"), ("note", Json.str "")]),
        .params [("id", "x")]⟩ "t1" true []
      = some (_response 400 (errBody "Invalid request body: note is required"), [])
    ∧ Delete.lambda_handler "notes" ⟨.absent, .params [("id", "  ")]⟩ true []
      = (_response 400 (errBody "Note id is required"), []) := by
  refine ⟨?_, ?_, ?_, ?_⟩
  · exact (C5_validation_400_no_store_call "notes" (by decide)).1
      ⟨.parsed (Json.obj [("title", Json.str " "), ("note", Json.str "x")]),
        .absent⟩ _ rfl "id1" "t0" true _
  · exact (C5_validation_400_no_store_call "notes" (by decide)).2.1
      ⟨.absent, .null⟩ rfl "t1" true []
  · exact (C5_validation_400_no_store_call "notes" (by decide)).2.2.1
      ⟨.parsed (Json.obj [("title", Json.str "A"), ("note", Json.str "")]),
        .params [("id", "x")]⟩ _ (by decide) rfl "t1" true []
  · exact (C5_validation_400_no_store_call "notes" (by decide)).2.2.2
      ⟨.absent, .params [("id", "  ")]⟩ (by decide) true []

/-- C10 counterexample: the event with no "body" key and no path
parameters makes the Update handler return 400 with the body
\x7b"error": "Note id is required"\x7d — not the missing-required-field
message "Invalid request body: title is required" the claim asserts for
every input event with no "body" key. -/
theorem C10_counterexample_update_no_id :
    Update.lambda_handler "notes" ⟨.absent, .absent⟩ "t1" false []
      = some (_response 400 (errBody "Note id is required"), [])
    ∧ errBody "Note id is required"
      ≠ errBody "Invalid request body: title is required" := by
  refine ⟨rfl, ?_⟩
  intro h
  simp only [errBody, Json.obj.injEq, List.cons.injEq, Prod.mk.injEq,
    Json.str.injEq] at h
  exact absurd h.1.2 (by decide)

/-- C10 (amended): with configuration present, an event with no "body" key
is treated as carrying the empty JSON object: the Create handler, and the
Update handler whenever the trimmed path identifier is non-empty, return
400 with the validation message "Invalid request body: title is required",
with no store call made — same response for every store state and fault,
store unchanged.  (Update with a missing or empty path identifier instead
returns 400 with "Note id is required" before the body is consulted.) -/
theorem C10_missing_body_treated_as_empty (tableName : String)
    (hcfg : tableName ≠ "") (pp : PathParams) (note_id now : String)
    (fault : Bool) (store : Store) :
    Create.lambda_handler tableName ⟨.absent, pp⟩ note_id now fault store
      = some (_response 400
          (errBody "Invalid request body: title is required"), store)
    ∧ (_get_note_id ⟨.absent, pp⟩ ≠ "" →
      Update.lambda_handler tableName ⟨.absent, pp⟩ now fault store
        = some (_response 400
            (errBody "Invalid request body: title is required"), store)) := by
  constructor
  · unfold Create.lambda_handler
    rw [if_neg hcfg]
    rfl
  · intro hid
    unfold Update.lambda_handler
    rw [if_neg hcfg]
    simp only [if_neg hid]
    rfl

theorem C10_missing_body_treated_as_empty_witness :
    Create.lambda_handler "notes" ⟨.absent, .params [("id", "x")]⟩
      "id1" "t0" true []
      = some (_response 400
          (errBody "Invalid request body: title is required"), [])
    ∧ Update.lambda_handler "notes" ⟨.absent, .params [("id", "x")]⟩
      "t1" true []
      = some (_response 400
          (errBody "Invalid request body: title is required"), []) := by
  have h := C10_missing_body_treated_as_empty "notes" (by decide)
    (.params [("id", "x")]) "id1" "t0" true []
  exact ⟨h.1, h.2 (by decide)⟩

theorem create_response_contract {tableName : String} {e : Event}
    {note_id now : String} {fault : Bool} {store : Store} {r : Response}
    {store2 : Store}
    (h : Create.lambda_handler tableName e note_id now fault store
      = some (r, store2)) : goodResponse r := by
  unfold Create.lambda_handler at h
  simp only [OWNER] at h
  repeat' split at h
  all_goals
    first
    | exact Option.noConfusion h
    | (simp only [Option.some.injEq, Prod.mk.injEq] at h
       rw [← h.1]
       first
       | exact goodResponse_err 400 _ (Or.inl rfl)
       | exact goodResponse_err 404 _ (Or.inr (Or.inl rfl))
       | exact goodResponse_err 500 _ (Or.inr (Or.inr rfl))
       | exact goodResponse_obj 200 _ (Or.inl rfl)
       | exact goodResponse_obj 201 _ (Or.inr rfl))

theorem update_response_contract {tableName : String} {e : Event}
    {now : String} {fault : Bool} {store : Store} {r : Response}
    {store2 : Store}
    (h : Update.lambda_handler tableName e now fault store
      = some (r, store2)) : goodResponse r := by
  unfold Update.lambda_handler at h
  simp only [OWNER] at h
  repeat' split at h
  all_goals
    first
    | exact Option.noConfusion h
    | (simp only [Option.some.injEq, Prod.mk.injEq] at h
       rw [← h.1]
       first
       | exact goodResponse_err 400 _ (Or.inl rfl)
       | exact goodResponse_err 404 _ (Or.inr (Or.inl rfl))
       | exact goodResponse_err 500 _ (Or.inr (Or.inr rfl))
       | exact goodResponse_obj 200 _ (Or.inl rfl))

theorem list_response_contract (tableName : String) (fault : Bool)
    (store : Store) :
    goodResponse (ListNotes.lambda_handler tableName fault store).1 := by
  unfold ListNotes.lambda_handler
  simp only [OWNER]
  repeat' split
  all_goals
    first
    | exact goodResponse_err 500 _ (Or.inr (Or.inr rfl))
    | exact goodResponse_obj 200 _ (Or.inl rfl)

theorem delete_response_contract (tableName : String) (e : Event)
    (fault : Bool) (store : Store) :
    goodResponse (Delete.lambda_handler tableName e fault store).1 := by
  unfold Delete.lambda_handler
  simp only [OWNER]
  repeat' split
  all_goals
    first
    | exact goodResponse_err 400 _ (Or.inl rfl)
    | exact goodResponse_err 404 _ (Or.inr (Or.inl rfl))
    | exact goodResponse_err 500 _ (Or.inr (Or.inr rfl))
    | exact goodResponse_obj 200 _ (Or.inl rfl)

/-- C2 counterexample: an input event whose body is parseable JSON but not
an object (the body string "true") makes the Create handler raise an
uncaught AttributeError and terminate without producing any response —
refuting the claim that no input causes a handler to terminate without a
response. -/
theorem C2_counterexample_no_response :
    Create.lambda_handler "notes" ⟨.parsed (Json.bool true), .absent⟩
      "id1" "t0" false [] = none := rfl

/-- C2 (amended): whenever a handler produces a response — always, for the
List and Delete handlers; for every input whose body is absent, malformed
or parses to a JSON object, for the Create and Update handlers, which
raise an uncaught exception on a body parsing to a non-object value — its
status code is one of 200/201/400/404/500, its content-type is
application/json, its body is a JSON-encoded object, and bodies of the
error statuses 400/404/500 have the shape \x7berror: message\x7d. -/
theorem C2_response_contract :
    (∀ tableName e note_id now fault store r store2,
      Create.lambda_handler tableName e note_id now fault store
        = some (r, store2) → goodResponse r)
    ∧ (∀ tableName e now fault store r store2,
      Update.lambda_handler tableName e now fault store
        = some (r, store2) → goodResponse r)
    ∧ (∀ tableName fault store,
      goodResponse (ListNotes.lambda_handler tableName fault store).1)
    ∧ (∀ tableName e fault store,
      goodResponse (Delete.lambda_handler tableName e fault store).1) := by
  refine ⟨?_, ?_, ?_, ?_⟩
  · intro tableName e note_id now fault store r store2 h
    exact create_response_contract h
  · intro tableName e now fault store r store2 h
    exact update_response_contract h
  · exact list_response_contract
  · exact delete_response_contract

theorem C2_response_contract_witness :
    goodResponse (_response 400 (errBody "Invalid request body: title is required"))
    ∧ goodResponse (_response 404 (errBody "Note not found"))
    ∧ goodResponse (ListNotes.lambda_handler "notes" false []).1
    ∧ goodResponse (Delete.lambda_handler "notes" ⟨.absent, .null⟩ false []).1 := by
  refine ⟨?_, ?_, ?_, ?_⟩
  · exact C2_response_contract.1 "notes" ⟨.absent, .absent⟩ "id1" "t0"
      false [] _ [] rfl
  · exact C2_response_contract.2.1 "notes"
      ⟨.parsed (Json.obj [("title", Json.str "A"), ("note", Json.str "B")]),
        .params [("id", "x")]⟩ "t1" false [] _ [] rfl
  · exact C2_response_contract.2.2.1 "notes" false []
  · exact C2_response_contract.2.2.2 "notes" ⟨.absent, .null⟩ false []
